import Mathlib

/-!
Verification of the Hero Health integration (custom_components/herohealth).

This file gives a shallow embedding of the integration's core logic:

* api.py — the API client: token expiry check, OAuth token refresh,
  and the shared authenticated request primitive with its single
  retry-on-401 policy;
* coordinator.py — the refresh coordinator: the concurrent five-call
  batch, per-call failure isolation, all-failed-with-auth escalation,
  response-shape normalization (dose flattening, event flattening,
  slot-occupancy coercion, taken-slot join), the per-slot remaining-days
  fan-out, snapshot assembly, stale-data fallback, and refresh-token
  persistence;
* binary_sensor.py — the device-online connectivity sensor's reading of
  the snapshot.

Python JSON values are modelled by the inductive type Json; Python None
is Json.null. Network I/O is modelled by passing each remote response
(or transport failure) as an explicit oracle argument. Exceptions are
modelled by the error type HError together with Except / Option results.
The monotonic clock (time.monotonic) is modelled as a natural number
passed explicitly; it is nonnegative and nondecreasing, and the model
holds it fixed within a single request.

Modelling restrictions, noted where they apply: payloads iterated by the
Python code (for-loops over values produced by dict.get) are assumed to
be JSON sequences at those positions — on other shapes the Python code
would raise TypeError, a crash outside every property considered here.
Likewise JSON numbers are modelled as integers, and values used as
Python dict keys are compared only at scalar shapes (Python would raise
TypeError on unhashable list/dict keys).
-/

/-- A Python/JSON value. Python None and JSON null are both Json.null. -/
inductive Json where
  | null : Json
  | bool (b : Bool) : Json
  | num (n : Int) : Json
  | str (s : String) : Json
  | arr (elems : List Json) : Json
  | obj (fields : List (String × Json)) : Json
deriving Repr

mutual

/-- Decidable equality on Json, by mutual structural recursion. -/
def jsonDecEq : (a b : Json) → Decidable (a = b)
  | .null, .null => .isTrue rfl
  | .null, .bool _ => .isFalse (fun h => Json.noConfusion h)
  | .null, .num _ => .isFalse (fun h => Json.noConfusion h)
  | .null, .str _ => .isFalse (fun h => Json.noConfusion h)
  | .null, .arr _ => .isFalse (fun h => Json.noConfusion h)
  | .null, .obj _ => .isFalse (fun h => Json.noConfusion h)
  | .bool _, .null => .isFalse (fun h => Json.noConfusion h)
  | .bool a, .bool b =>
    match decEq a b with
    | .isTrue h => .isTrue (h ▸ rfl)
    | .isFalse h => .isFalse (fun hh => h (Json.bool.inj hh))
  | .bool _, .num _ => .isFalse (fun h => Json.noConfusion h)
  | .bool _, .str _ => .isFalse (fun h => Json.noConfusion h)
  | .bool _, .arr _ => .isFalse (fun h => Json.noConfusion h)
  | .bool _, .obj _ => .isFalse (fun h => Json.noConfusion h)
  | .num _, .null => .isFalse (fun h => Json.noConfusion h)
  | .num _, .bool _ => .isFalse (fun h => Json.noConfusion h)
  | .num a, .num b =>
    match decEq a b with
    | .isTrue h => .isTrue (h ▸ rfl)
    | .isFalse h => .isFalse (fun hh => h (Json.num.inj hh))
  | .num _, .str _ => .isFalse (fun h => Json.noConfusion h)
  | .num _, .arr _ => .isFalse (fun h => Json.noConfusion h)
  | .num _, .obj _ => .isFalse (fun h => Json.noConfusion h)
  | .str _, .null => .isFalse (fun h => Json.noConfusion h)
  | .str _, .bool _ => .isFalse (fun h => Json.noConfusion h)
  | .str _, .num _ => .isFalse (fun h => Json.noConfusion h)
  | .str a, .str b =>
    match decEq a b with
    | .isTrue h => .isTrue (h ▸ rfl)
    | .isFalse h => .isFalse (fun hh => h (Json.str.inj hh))
  | .str _, .arr _ => .isFalse (fun h => Json.noConfusion h)
  | .str _, .obj _ => .isFalse (fun h => Json.noConfusion h)
  | .arr _, .null => .isFalse (fun h => Json.noConfusion h)
  | .arr _, .bool _ => .isFalse (fun h => Json.noConfusion h)
  | .arr _, .num _ => .isFalse (fun h => Json.noConfusion h)
  | .arr _, .str _ => .isFalse (fun h => Json.noConfusion h)
  | .arr xs, .arr ys =>
    match jsonDecEqList xs ys with
    | .isTrue h => .isTrue (h ▸ rfl)
    | .isFalse h => .isFalse (fun hh => h (Json.arr.inj hh))
  | .arr _, .obj _ => .isFalse (fun h => Json.noConfusion h)
  | .obj _, .null => .isFalse (fun h => Json.noConfusion h)
  | .obj _, .bool _ => .isFalse (fun h => Json.noConfusion h)
  | .obj _, .num _ => .isFalse (fun h => Json.noConfusion h)
  | .obj _, .str _ => .isFalse (fun h => Json.noConfusion h)
  | .obj _, .arr _ => .isFalse (fun h => Json.noConfusion h)
  | .obj fs, .obj gs =>
    match jsonDecEqFields fs gs with
    | .isTrue h => .isTrue (h ▸ rfl)
    | .isFalse h => .isFalse (fun hh => h (Json.obj.inj hh))

/-- Decidable equality on lists of Json. -/
def jsonDecEqList : (xs ys : List Json) → Decidable (xs = ys)
  | [], [] => .isTrue rfl
  | [], _ :: _ => .isFalse (fun h => List.noConfusion h)
  | _ :: _, [] => .isFalse (fun h => List.noConfusion h)
  | x :: xs, y :: ys =>
    match jsonDecEq x y with
    | .isFalse h => .isFalse (fun hh => h (List.cons.inj hh).1)
    | .isTrue h1 =>
      match jsonDecEqList xs ys with
      | .isTrue h2 => .isTrue (h1 ▸ h2 ▸ rfl)
      | .isFalse h2 => .isFalse (fun hh => h2 (List.cons.inj hh).2)

/-- Decidable equality on Json object field lists. -/
def jsonDecEqFields : (fs gs : List (String × Json)) → Decidable (fs = gs)
  | [], [] => .isTrue rfl
  | [], _ :: _ => .isFalse (fun h => List.noConfusion h)
  | _ :: _, [] => .isFalse (fun h => List.noConfusion h)
  | (k1, v1) :: fs, (k2, v2) :: gs =>
    match decEq k1 k2 with
    | .isFalse h => .isFalse (fun hh => h (congrArg Prod.fst (List.cons.inj hh).1))
    | .isTrue hk =>
      match jsonDecEq v1 v2 with
      | .isFalse h => .isFalse (fun hh => h (congrArg Prod.snd (List.cons.inj hh).1))
      | .isTrue hv =>
        match jsonDecEqFields fs gs with
        | .isTrue ht => .isTrue (hk ▸ hv ▸ ht ▸ rfl)
        | .isFalse h => .isFalse (fun hh => h (List.cons.inj hh).2)

end

instance : DecidableEq Json := jsonDecEq

/-- Python truthiness of a JSON value: None, False, 0, "", [] and \x7b\x7d
are falsy, everything else is truthy. -/
def pyTruthy : Json → Bool
  | .null => false
  | .bool b => b
  | .num n => n != 0
  | .str s => !s.isEmpty
  | .arr l => !l.isEmpty
  | .obj l => !l.isEmpty

/-- Key lookup on a JSON object; none on a missing key or a non-object.
Models Python mapping access (Python dicts have unique keys, so first
match is the match). -/
def Json.lookupKey : Json → String → Option Json
  | .obj fields, k => fields.lookup k
  | _, _ => none

/-- Python dict.get(k, dflt): the stored value when the key is present
(even if that value is None/null), the default otherwise. -/
def Json.getD (j : Json) (k : String) (dflt : Json) : Json :=
  (j.lookupKey k).getD dflt

/-- Python dict.get(k): as Json.getD with default None. -/
def Json.get (j : Json) (k : String) : Json := j.getD k .null

/-- Is the value a Python dict (isinstance(x, dict))? -/
def Json.isDict : Json → Bool
  | .obj _ => true
  | _ => false

/-- The elements a Python for-loop sees when iterating the value.
Modelling restriction: positions iterated by the embedded code are
assumed to hold sequences; Python would raise TypeError on most other
shapes, which is outside every property treated here. -/
def iterElems : Json → List Json
  | .arr xs => xs
  | _ => []

/-- Python dict assignment d[k] = v on a field list: replaces the value
in place if the key exists, otherwise appends the new binding. -/
def fieldsSet (fields : List (String × Json)) (k : String) (v : Json) :
    List (String × Json) :=
  if fields.any (fun p => p.1 = k) then
    fields.map (fun p => if p.1 = k then (k, v) else p)
  else fields ++ [(k, v)]

/-- Python dict assignment on a dict with keys of any (hashable) type. -/
def dictInsert {α : Type} [DecidableEq α] (m : List (α × Json)) (k : α)
    (v : Json) : List (α × Json) :=
  if m.any (fun p => p.1 = k) then
    m.map (fun p => if p.1 = k then (k, v) else p)
  else m ++ [(k, v)]

/-- Python dict lookup d.get(k) on a dict with keys of any type. -/
def dictGet {α : Type} [DecidableEq α] (m : List (α × Json)) (k : α) :
    Option Json :=
  (m.find? (fun p => decide (p.1 = k))).map (fun p => p.2)

/-- The exception taxonomy of api.py. HeroHealthAuthError and
HeroHealthConnectionError are both subclasses of HeroHealthApiError in
the source; here every HError counts as a HeroHealthApiError, and only
authError counts as a HeroHealthAuthError. -/
inductive HError where
  | authError (msg : String) : HError
  | connError (msg : String) : HError
  | apiError (msg : String) : HError
deriving DecidableEq, Repr

/-- isinstance(e, HeroHealthAuthError). -/
def HError.isAuth : HError → Bool
  | .authError _ => true
  | _ => false

/-- The message the exception carries. -/
def HError.msg : HError → String
  | .authError m => m
  | .connError m => m
  | .apiError m => m

/-- Is the Except an error (a captured exception)? -/
def isErr {ε α : Type} : Except ε α → Bool
  | .error _ => true
  | .ok _ => false

/-- The mutable credential state of HeroHealthApiClient:
access_token (None at construction), refresh_token, and
token_acquired_at (the monotonic time of acquisition, 0 = never). -/
structure ClientState where
  access_token : Json
  refresh_token : Json
  token_acquired_at : Nat
deriving DecidableEq, Repr

/-- HeroHealthApiClient.__init__: no access token, acquired-at 0. -/
def mkClient (refreshTok : Json) : ClientState :=
  { access_token := .null, refresh_token := refreshTok, token_acquired_at := 0 }

/-- TOKEN_LIFETIME_SECONDS from const.py. -/
def TOKEN_LIFETIME_SECONDS : Nat := 3000

/-- HeroHealthApiClient._token_is_expired, at monotonic time now:
true when no (truthy) access token is held or the acquisition time is
the 0 sentinel; otherwise true when the elapsed time has reached
TOKEN_LIFETIME_SECONDS - 120. -/
def tokenIsExpired (st : ClientState) (now : Nat) : Bool :=
  if !pyTruthy st.access_token || st.token_acquired_at == 0 then true
  else decide (TOKEN_LIFETIME_SECONDS - 120 ≤ now - st.token_acquired_at)

/-- The outcome of one POST to the OAuth token endpoint: a transport
failure (aiohttp.ClientError) or an HTTP response with a parsed body. -/
inductive RefreshOutcome where
  | netFail (msg : String) : RefreshOutcome
  | resp (status : Nat) (body : Json) : RefreshOutcome

/-- HeroHealthApiClient.refresh_access_token, at monotonic time now,
with the token endpoint's outcome given by o. Returns the client state
after the call together with the raised exception, if any (none on
success). On 400/401, other non-200 statuses and transport failures
the state is untouched; on a 200 response the three credential fields
are mutated before the missing-access-token check runs. -/
def refreshAccessToken (st : ClientState) (now : Nat) (o : RefreshOutcome) :
    ClientState × Option HError :=
  match o with
  | .netFail m => (st, some (.connError ("Connection error: " ++ m)))
  | .resp status body =>
    if status == 400 || status == 401 then
      (st, some (.authError "Token refresh failed - refresh token may be expired"))
    else if status != 200 then
      (st, some (.apiError ("Token refresh failed: " ++ toString status)))
    else
      let newAccess := body.get "access_token"
      let newRefresh := body.get "refresh_token"
      let st' : ClientState :=
        { access_token := newAccess
          refresh_token := if pyTruthy newRefresh then newRefresh else st.refresh_token
          token_acquired_at := now }
      if !pyTruthy newAccess then
        (st', some (.authError "No access token in refresh response"))
      else (st', none)

/-- The outcome of one HTTP attempt of an API request: a transport
failure (aiohttp.ClientError) or a response with status and body. -/
inductive HttpOutcome where
  | netFail (msg : String) : HttpOutcome
  | resp (status : Nat) (body : Json) : HttpOutcome

deriving instance DecidableEq for Except

/-- The trace of one HeroHealthApiClient._request call: the client state
afterwards, how many HTTP attempts of the request were issued, how many
token refreshes were performed, and the returned body or raised error. -/
structure ReqTrace where
  state : ClientState
  attempts : Nat
  refreshes : Nat
  result : Except HError Json
deriving DecidableEq, Repr

/-- The body of HeroHealthApiClient._request after _ensure_token has
left a believed-valid token (api.py lines 144-188), starting from
client state st1 with r0 refreshes already performed during this call.
httpO 0 and httpO 1 are the outcomes of the first attempt and of the
retry; refreshO r0 is the outcome of the 401-triggered refresh. A 401
on the first attempt forces one refresh and exactly one retry; a 401 on
the retry raises HeroHealthAuthError; any other non-200 raises
HeroHealthApiError; transport failures raise HeroHealthConnectionError. -/
def requestCore (st1 : ClientState) (now : Nat) (r0 : Nat)
    (refreshO : Nat → RefreshOutcome) (httpO : Nat → HttpOutcome) : ReqTrace :=
  match httpO 0 with
  | .netFail m =>
    { state := st1, attempts := 1, refreshes := r0
      result := .error (.connError ("Connection error: " ++ m)) }
  | .resp status body =>
    if status == 401 then
      match refreshAccessToken st1 now (refreshO r0) with
      | (st2, some e) =>
        { state := st2, attempts := 1, refreshes := r0 + 1, result := .error e }
      | (st2, none) =>
        match httpO 1 with
        | .netFail m =>
          { state := st2, attempts := 2, refreshes := r0 + 1
            result := .error (.connError ("Connection error: " ++ m)) }
        | .resp status2 body2 =>
          if status2 == 401 then
            { state := st2, attempts := 2, refreshes := r0 + 1
              result := .error (.authError "Authentication failed after retry") }
          else if status2 != 200 then
            { state := st2, attempts := 2, refreshes := r0 + 1
              result := .error (.apiError ("Request failed: " ++ toString status2)) }
          else
            { state := st2, attempts := 2, refreshes := r0 + 1, result := .ok body2 }
    else if status != 200 then
      { state := st1, attempts := 1, refreshes := r0
        result := .error (.apiError ("Request failed: " ++ toString status)) }
    else
      { state := st1, attempts := 1, refreshes := r0, result := .ok body }

/-- HeroHealthApiClient._request at monotonic time now: _ensure_token
(api.py lines 133-136) refreshes proactively when no access token is
held or it is expired, and a refresh failure there propagates before
any HTTP attempt; then the attempt/retry body runs (requestCore). -/
def request (st : ClientState) (now : Nat)
    (refreshO : Nat → RefreshOutcome) (httpO : Nat → HttpOutcome) : ReqTrace :=
  if !pyTruthy st.access_token || tokenIsExpired st now then
    match refreshAccessToken st now (refreshO 0) with
    | (st1, some e) => { state := st1, attempts := 0, refreshes := 1, result := .error e }
    | (st1, none) => requestCore st1 now 1 refreshO httpO
  else requestCore st now 0 refreshO httpO

/-- Dose flattening (coordinator.py lines 98-111): walk the nested
dates[].times[].doses[] structure of the home-screen-doses payload,
denormalize each time entry's scheduled_datetime onto every dose dict,
and collect the doses; non-dict entries at any level are skipped, and a
non-dict payload contributes nothing. -/
def flattenDoses (rawDoses : Json) : List Json :=
  match rawDoses with
  | .obj _ =>
    (iterElems (rawDoses.getD "dates" (.arr []))).flatMap fun dateEntry =>
      match dateEntry with
      | .obj _ =>
        (iterElems (dateEntry.getD "times" (.arr []))).flatMap fun timeEntry =>
          match timeEntry with
          | .obj _ =>
            let scheduledDt := timeEntry.get "scheduled_datetime"
            (iterElems (timeEntry.getD "doses" (.arr []))).filterMap fun dose =>
              match dose with
              | .obj doseFields =>
                some (.obj (fieldsSet doseFields "scheduled_datetime" scheduledDt))
              | _ => none
          | _ => []
      | _ => []
  | _ => []

/-- Event flattening (coordinator.py lines 113-120): concatenate the
day-keyed buckets of the events payload, keeping only dict events from
list-valued buckets; a non-dict payload contributes nothing. -/
def flattenEvents (rawEvents : Json) : List Json :=
  match rawEvents with
  | .obj fields =>
    fields.flatMap fun kv =>
      match kv.2 with
      | .arr dayEvents => dayEvents.filter (fun e => e.isDict)
      | _ => []
  | _ => []

/-- Pill-map construction (coordinator.py lines 126-130): index the
device-config pills by their slot value, keeping pills that are dicts
whose slot value is not None. Python dict keys must be hashable, so in
the model pill-map keys are compared as Json values (scalar in every
run Python would not crash on). -/
def buildPillMap (deviceConfig : Json) : List (Json × Json) :=
  (iterElems (deviceConfig.getD "pills" (.arr []))).foldl
    (fun m pill =>
      match pill with
      | .obj _ =>
        if pill.get "slot" != .null then dictInsert m (pill.get "slot") pill else m
      | _ => m)
    []

/-- Slot-occupancy coercion (coordinator.py lines 132-137): a mapping
payload contributes its slots field (default empty), a bare sequence
contributes itself, anything else contributes the empty list. -/
def normalizeSlots (rawTakenSlots : Json) : List Json :=
  match rawTakenSlots with
  | .obj _ => iterElems (rawTakenSlots.getD "slots" (.arr []))
  | .arr xs => xs
  | _ => []

/-- Taken-slot join (coordinator.py lines 139-149): keep the integer
slot numbers, and attach each one's pill name and storage flag from the
pill map, defaulting both to None when no pill occupies the slot. -/
def joinTakenSlots (slotNumbers : List Json) (pillMap : List (Json × Json)) :
    List Json :=
  slotNumbers.filterMap fun slotNum =>
    match slotNum with
    | .num n =>
      let pillInfo := (dictGet pillMap (.num n)).getD (.obj [])
      some (.obj
        [("slot_index", .num n),
         ("pill_name", pillInfo.get "name"),
         ("stored_in_hero", pillInfo.get "stored_in_hero")])
    | _ => none

/-- The dependent remaining-days fan-out (coordinator.py lines 151-163):
one get_pill_remaining_days call per taken slot, with remO giving each
slot's outcome; a failed call (any HeroHealthApiError) is skipped. -/
def fetchRemainingDays (takenSlots : List Json)
    (remO : Int → Except HError Json) : List (Int × Json) :=
  takenSlots.foldl
    (fun m slotInfo =>
      match slotInfo.get "slot_index" with
      | .num n =>
        match remO n with
        | .ok daysData => dictInsert m n daysData
        | .error _ => m
      | _ => m)
    []

/-- One cycle's assembled snapshot (coordinator.py lines 165-173). -/
structure Snapshot where
  doses : List Json
  events : List Json
  pills_by_schedule : Json
  device_config : Json
  taken_slots : List Json
  remaining_days : List (Int × Json)
  pill_map : List (Json × Json)
deriving DecidableEq, Repr

/-- The outcomes of the five concurrent calls gathered at
coordinator.py lines 73-80, in source order: home-screen doses,
home-screen events, pills-by-schedules, device config, taken slots.
asyncio.gather(..., return_exceptions=True) captures each call's
exception, so each outcome is a value or a captured HError. -/
structure Batch where
  doses : Except HError Json
  events : Except HError Json
  pills : Except HError Json
  config : Except HError Json
  slots : Except HError Json
deriving DecidableEq, Repr

/-- The gather results list, in source order. -/
def Batch.toList (b : Batch) : List (Except HError Json) :=
  [b.doses, b.events, b.pills, b.config, b.slots]

/-- results[i] if not isinstance(results[i], Exception) else \x7b\x7d. -/
def dfltJson : Except HError Json → Json
  | .ok j => j
  | .error _ => .obj []

/-- The projection behind the list comprehension at coordinator.py
line 94: the exception when the outcome is a captured
HeroHealthAuthError, none otherwise. -/
def authErrOf : Except HError Json → Option HError
  | .error (.authError m) => some (.authError m)
  | _ => none

/-- isinstance(r, HeroHealthAuthError) on a gather outcome. -/
def isAuthFailure (r : Except HError Json) : Bool :=
  (authErrOf r).isSome

/-- Snapshot assembly from the five defaulted payloads
(coordinator.py lines 98-173): flatten doses and events, normalize the
device config to a dict, build the pill map, coerce and join the taken
slots, run the remaining-days fan-out, and assemble the snapshot. -/
def buildSnapshot (rawDoses rawEvents pillsBySchedule deviceConfigRaw
    rawTakenSlots : Json) (remO : Int → Except HError Json) : Snapshot :=
  let deviceConfig := if deviceConfigRaw.isDict then deviceConfigRaw else .obj []
  let pillMap := buildPillMap deviceConfig
  let takenSlots := joinTakenSlots (normalizeSlots rawTakenSlots) pillMap
  { doses := flattenDoses rawDoses
    events := flattenEvents rawEvents
    pills_by_schedule := pillsBySchedule
    device_config := deviceConfig
    taken_slots := takenSlots
    remaining_days := fetchRemainingDays takenSlots remO
    pill_map := pillMap }

/-- HeroHealthCoordinator._fetch_all_data (coordinator.py lines 71-182):
substitute an empty dict for each failed call, re-raise the first auth
failure when every one of the five outcomes is a HeroHealthAuthError,
and otherwise build the snapshot. -/
def fetchAllData (b : Batch) (remO : Int → Except HError Json) :
    Except HError Snapshot :=
  if (b.toList.filterMap authErrOf).length = b.toList.length then
    .error ((b.toList.filterMap authErrOf).headD (.authError ""))
  else
    .ok (buildSnapshot (dfltJson b.doses) (dfltJson b.events) (dfltJson b.pills)
      (dfltJson b.config) (dfltJson b.slots) remO)

/-- The values stored in the coordinator's data dict. -/
inductive PyVal where
  | json (j : Json) : PyVal
  | jlist (xs : List Json) : PyVal
  | imap (m : List (Int × Json)) : PyVal
  | jmap (m : List (Json × Json)) : PyVal
deriving DecidableEq, Repr

/-- The data dict literal assembled at coordinator.py lines 165-173,
with its seven keys in source order. -/
def snapToDict (s : Snapshot) : List (String × PyVal) :=
  [("doses", .jlist s.doses),
   ("events", .jlist s.events),
   ("pills_by_schedule", .json s.pills_by_schedule),
   ("device_config", .json s.device_config),
   ("taken_slots", .jlist s.taken_slots),
   ("remaining_days", .imap s.remaining_days),
   ("pill_map", .jmap s.pill_map)]

/-- Python dict.get on the coordinator data dict (None when absent). -/
def dataGet (d : List (String × PyVal)) (k : String) : Option PyVal :=
  d.lookup k

/-- HeroHealthDeviceOnlineSensor.is_on (binary_sensor.py lines 63-68):
None when the coordinator has no data, otherwise the data dict's
device_online entry looked up with .get (None when the key is absent). -/
def deviceOnlineIsOn (data : Option (List (String × PyVal))) : Option PyVal :=
  match data with
  | none => none
  | some d => dataGet d "device_online"

/-- The cycle-level failures _async_update_data can raise. -/
inductive CycleError where
  | configEntryAuthFailed (msg : String) : CycleError
  | updateFailed (msg : String) : CycleError
deriving DecidableEq, Repr

/-- One refresh cycle's observable outcome: the returned snapshot or
raised error, and the refresh tokens passed to the persistence hook
(config_entries.async_update_entry), in order. -/
structure CycleResult where
  result : Except CycleError Snapshot
  hookCalls : List Json
deriving DecidableEq, Repr

/-- HeroHealthCoordinator._persist_refresh_token (coordinator.py lines
42-48): invoke the persistence hook with the client's refresh token
exactly when it differs from the stored value; returns the list of hook
invocations. persisted models config_entry.data.get(CONF_REFRESH_TOKEN). -/
def persistRefreshToken (persisted clientTok : Json) : List Json :=
  if clientTok = persisted then [] else [clientTok]

/-- HeroHealthCoordinator._async_update_data (coordinator.py lines
50-69) applied to the outcome of _fetch_all_data: on success persist a
rotated refresh token and return the snapshot; re-raise an auth failure
as ConfigEntryAuthFailed; on any other HeroHealthApiError return the
previous data if it exists (a built snapshot dict is never empty, so
Python truthiness of self.data is its presence), else raise
UpdateFailed. The failure branches never reach the persistence hook. -/
def asyncUpdateData (fetch : Except HError Snapshot) (prior : Option Snapshot)
    (persisted clientTok : Json) : CycleResult :=
  match fetch with
  | .ok s => { result := .ok s, hookCalls := persistRefreshToken persisted clientTok }
  | .error (.authError m) =>
    { result := .error (.configEntryAuthFailed ("Authentication failed: " ++ m))
      hookCalls := [] }
  | .error e =>
    match prior with
    | some d => { result := .ok d, hookCalls := [] }
    | none =>
      { result := .error (.updateFailed ("Error communicating with API: " ++ e.msg))
        hookCalls := [] }

/-- One whole refresh cycle: _async_update_data around _fetch_all_data. -/
def updateCycle (b : Batch) (remO : Int → Except HError Json)
    (prior : Option Snapshot) (persisted clientTok : Json) : CycleResult :=
  asyncUpdateData (fetchAllData b remO) prior persisted clientTok

/-- The all-auth check at coordinator.py line 95: the filtered list of
auth failures has the full batch length exactly when every outcome is a
captured HeroHealthAuthError. -/
theorem authFailures_full_iff (l : List (Except HError Json)) :
    ((l.filterMap authErrOf).length = l.length) ↔ l.all isAuthFailure = true := by
  induction l with
  | nil => simp
  | cons x xs ih =>
    cases hx : authErrOf x with
    | none =>
      have hle := List.length_filterMap_le authErrOf xs
      simp [List.filterMap_cons, hx, isAuthFailure]
      omega
    | some e =>
      simp [List.filterMap_cons, hx, isAuthFailure, ih]

/-- C1: a refresh cycle re-raises to its caller exactly when every one
of the five concurrent calls failed with an auth failure, in which case
it re-raises the first call's auth error; any other mix of outcomes is
not an error, so the cycle proceeds to a snapshot. -/
theorem c1_escalates_iff_all_auth (b : Batch) (remO : Int → Except HError Json) :
    (isErr (fetchAllData b remO) = b.toList.all isAuthFailure) ∧
    (∀ e : HError, fetchAllData b remO = .error e →
      b.doses = .error e ∧ e.isAuth = true) := by
  by_cases h : (b.toList.filterMap authErrOf).length = b.toList.length
  · have hall : b.toList.all isAuthFailure = true := (authFailures_full_iff _).mp h
    have hdoses : isAuthFailure b.doses = true := by
      simp only [Batch.toList, List.all_cons, Bool.and_eq_true] at hall
      exact hall.1
    obtain ⟨m, hm⟩ : ∃ m, b.doses = .error (.authError m) := by
      cases hd : b.doses with
      | ok v => rw [hd] at hdoses; simp [isAuthFailure, authErrOf] at hdoses
      | error e0 =>
        cases e0 with
        | authError m => exact ⟨m, rfl⟩
        | connError m => rw [hd] at hdoses; simp [isAuthFailure, authErrOf] at hdoses
        | apiError m => rw [hd] at hdoses; simp [isAuthFailure, authErrOf] at hdoses
    have hfetch : fetchAllData b remO = .error (.authError m) := by
      unfold fetchAllData
      rw [if_pos h]
      simp [Batch.toList, List.filterMap_cons, hm, authErrOf]
    refine ⟨by rw [hfetch, hall]; rfl, fun e he => ?_⟩
    rw [hfetch] at he
    have hme : HError.authError m = e := Except.error.inj he
    rw [← hme]
    exact ⟨hm, rfl⟩
  · have hall : b.toList.all isAuthFailure = false := by
      cases hb : b.toList.all isAuthFailure with
      | false => rfl
      | true => exact absurd ((authFailures_full_iff _).mpr hb) h
    have hfetch : fetchAllData b remO = .ok (buildSnapshot (dfltJson b.doses)
        (dfltJson b.events) (dfltJson b.pills) (dfltJson b.config)
        (dfltJson b.slots) remO) := by
      unfold fetchAllData
      rw [if_neg h]
    refine ⟨by rw [hfetch, hall]; rfl, fun e he => ?_⟩
    rw [hfetch] at he
    exact Except.noConfusion he

/-- Witness for C1: a concrete batch in which all five calls failed with
auth errors; the cycle re-raises the first one. -/
theorem c1_escalates_iff_all_auth_witness :
    (Batch.mk (.error (.authError "a0")) (.error (.authError "a1"))
      (.error (.authError "a2")) (.error (.authError "a3"))
      (.error (.authError "a4"))).doses = .error (.authError "a0") ∧
    (HError.authError "a0").isAuth = true :=
  (c1_escalates_iff_all_auth
    (Batch.mk (.error (.authError "a0")) (.error (.authError "a1"))
      (.error (.authError "a2")) (.error (.authError "a3"))
      (.error (.authError "a4"))) (fun _ => .ok .null)).2
    (.authError "a0") (by decide)

/-- C5: in any cycle that completes without escalating, the snapshot
carries all seven data keys, in source order, and each failed call's
field holds the empty value of its normalized type rather than being
absent. -/
theorem c5_snapshot_fields_total (b : Batch) (remO : Int → Except HError Json)
    (h : b.toList.all isAuthFailure = false) :
    ∃ s : Snapshot, fetchAllData b remO = .ok s ∧
      (snapToDict s).map Prod.fst =
        ["doses", "events", "pills_by_schedule", "device_config",
         "taken_slots", "remaining_days", "pill_map"] ∧
      (isErr b.doses = true → s.doses = []) ∧
      (isErr b.events = true → s.events = []) ∧
      (isErr b.pills = true → s.pills_by_schedule = .obj []) ∧
      (isErr b.config = true → s.device_config = .obj [] ∧ s.pill_map = []) ∧
      (isErr b.slots = true → s.taken_slots = [] ∧ s.remaining_days = []) := by
  have hlen : ¬ ((b.toList.filterMap authErrOf).length = b.toList.length) := by
    intro hc
    rw [authFailures_full_iff] at hc
    rw [h] at hc
    exact Bool.noConfusion hc
  refine ⟨buildSnapshot (dfltJson b.doses) (dfltJson b.events) (dfltJson b.pills)
      (dfltJson b.config) (dfltJson b.slots) remO, ?_, rfl, ?_, ?_, ?_, ?_, ?_⟩
  · unfold fetchAllData
    rw [if_neg hlen]
  · intro hd
    cases hb : b.doses with
    | ok v => rw [hb] at hd; exact Bool.noConfusion hd
    | error e => rfl
  · intro hd
    cases hb : b.events with
    | ok v => rw [hb] at hd; exact Bool.noConfusion hd
    | error e => rfl
  · intro hd
    cases hb : b.pills with
    | ok v => rw [hb] at hd; exact Bool.noConfusion hd
    | error e => rfl
  · intro hd
    cases hb : b.config with
    | ok v => rw [hb] at hd; exact Bool.noConfusion hd
    | error e => exact ⟨rfl, rfl⟩
  · intro hd
    cases hb : b.slots with
    | ok v => rw [hb] at hd; exact Bool.noConfusion hd
    | error e => exact ⟨rfl, rfl⟩

/-- A mixed batch for the C5 witness: the doses, config and slots calls
failed (one of them with an auth error), the events and pills calls
succeeded. -/
def c5MixedBatch : Batch :=
  { doses := .error (.connError "net down")
    events := .ok (.obj [("today", .arr [.obj [("event", .str "dose_taken")]])])
    pills := .ok (.arr [.obj [("schedule", .str "morning")]])
    config := .error (.authError "Authentication failed after retry")
    slots := .error (.apiError "Request failed: 500") }

/-- Witness for C5 at the concrete mixed batch. -/
theorem c5_snapshot_fields_total_witness :
    ∃ s : Snapshot, fetchAllData c5MixedBatch (fun _ => .ok .null) = .ok s ∧
      (snapToDict s).map Prod.fst =
        ["doses", "events", "pills_by_schedule", "device_config",
         "taken_slots", "remaining_days", "pill_map"] ∧
      (isErr c5MixedBatch.doses = true → s.doses = []) ∧
      (isErr c5MixedBatch.events = true → s.events = []) ∧
      (isErr c5MixedBatch.pills = true → s.pills_by_schedule = .obj []) ∧
      (isErr c5MixedBatch.config = true → s.device_config = .obj [] ∧ s.pill_map = []) ∧
      (isErr c5MixedBatch.slots = true → s.taken_slots = [] ∧ s.remaining_days = []) :=
  c5_snapshot_fields_total c5MixedBatch (fun _ => .ok .null) (by decide)

/-- C2 (amended): a batch whose five calls all failed with
ConnectionError does not escalate and does not restore the previous
snapshot: the cycle swallows the per-call failures and returns a fresh
snapshot of typed empty defaults. The stale-snapshot branch of
_async_update_data would return the prior data only if _fetch_all_data
itself raised a non-auth error, which an all-ConnectionError batch
never causes. -/
theorem c2_all_conn_yields_fresh_defaults (m1 m2 m3 m4 m5 : String)
    (remO : Int → Except HError Json) (prior : Option Snapshot)
    (persisted clientTok : Json) :
    fetchAllData
        (Batch.mk (.error (.connError m1)) (.error (.connError m2))
          (.error (.connError m3)) (.error (.connError m4))
          (.error (.connError m5))) remO =
      .ok (Snapshot.mk [] [] (.obj []) (.obj []) [] [] []) ∧
    (updateCycle
        (Batch.mk (.error (.connError m1)) (.error (.connError m2))
          (.error (.connError m3)) (.error (.connError m4))
          (.error (.connError m5))) remO prior persisted clientTok).result =
      .ok (Snapshot.mk [] [] (.obj []) (.obj []) [] [] []) ∧
    (∀ (m : String) (d : Snapshot),
      asyncUpdateData (.error (.connError m)) (some d) persisted clientTok =
        CycleResult.mk (.ok d) []) :=
  ⟨rfl, rfl, fun _ _ => rfl⟩

/-- The all-ConnectionError batch of the C2 counterexample. -/
def c2ConnBatch : Batch :=
  { doses := .error (.connError "Connection error: net down")
    events := .error (.connError "Connection error: net down")
    pills := .error (.connError "Connection error: net down")
    config := .error (.connError "Connection error: net down")
    slots := .error (.connError "Connection error: net down") }

/-- The non-empty previous snapshot of the C2 counterexample. -/
def c2Prior : Snapshot :=
  { doses := [.obj [("pill", .str "Aspirin"), ("scheduled_datetime", .null)]]
    events := []
    pills_by_schedule := .obj []
    device_config := .obj []
    taken_slots := []
    remaining_days := []
    pill_map := [] }

/-- Counterexample to C2 as stated: with a previous snapshot present and
every batch call failing with ConnectionError, the cycle returns a
fresh all-defaults snapshot, not the previous snapshot. -/
theorem c2_counterexample :
    (updateCycle c2ConnBatch (fun _ => .ok .null) (some c2Prior)
        (.str "r") (.str "r")).result ≠ .ok c2Prior ∧
    (updateCycle c2ConnBatch (fun _ => .ok .null) (some c2Prior)
        (.str "r") (.str "r")).result =
      .ok (Snapshot.mk [] [] (.obj []) (.obj []) [] [] []) :=
  ⟨by decide, rfl⟩

/-- C4 (amended): the refresh cycle never performs the offline check —
no snapshot it produces carries a device-online field. The connectivity
sensor therefore reads the absent key and returns None (unknown), not
true, for every snapshot of every cycle. -/
theorem c4_no_device_online_in_snapshot (b : Batch)
    (remO : Int → Except HError Json) (s : Snapshot)
    (_h : fetchAllData b remO = .ok s) :
    dataGet (snapToDict s) "device_online" = none ∧
    deviceOnlineIsOn (some (snapToDict s)) = none ∧
    (snapToDict s).map Prod.fst =
      ["doses", "events", "pills_by_schedule", "device_config",
       "taken_slots", "remaining_days", "pill_map"] :=
  ⟨rfl, rfl, rfl⟩

/-- A fully successful batch with a device-config payload, for C4. -/
def c4Batch : Batch :=
  { doses := .ok (.obj [("dates", .arr [])])
    events := .ok (.obj [("today", .arr [])])
    pills := .ok (.arr [])
    config := .ok (.obj [("model", .str "Hero"), ("firmware_version", .str "1.2")])
    slots := .ok (.obj [("slots", .arr [])]) }

/-- The snapshot the cycle assembles from c4Batch. -/
def c4Snap : Snapshot :=
  { doses := []
    events := []
    pills_by_schedule := .arr []
    device_config := .obj [("model", .str "Hero"), ("firmware_version", .str "1.2")]
    taken_slots := []
    remaining_days := []
    pill_map := [] }

/-- Witness for C4 at the concrete successful batch. -/
theorem c4_no_device_online_in_snapshot_witness :
    dataGet (snapToDict c4Snap) "device_online" = none ∧
    deviceOnlineIsOn (some (snapToDict c4Snap)) = none ∧
    (snapToDict c4Snap).map Prod.fst =
      ["doses", "events", "pills_by_schedule", "device_config",
       "taken_slots", "remaining_days", "pill_map"] :=
  c4_no_device_online_in_snapshot c4Batch (fun _ => .ok .null) c4Snap (by decide)

/-- Counterexample to C4 as stated: on a cycle whose calls all succeed,
the claim says the connectivity sensor reads true (absent flag treated
as online), but the sensor's is_on reads None — the cycle never invokes
the offline check and assembles no device-online field at all. -/
theorem c4_counterexample :
    fetchAllData c4Batch (fun _ => .ok .null) = .ok c4Snap ∧
    deviceOnlineIsOn (some (snapToDict c4Snap)) = none ∧
    deviceOnlineIsOn (some (snapToDict c4Snap)) ≠ some (.json (.bool true)) :=
  ⟨by decide, rfl, by decide⟩

/-- C7 (amended): the dose-flattening step extracts doses only from the
nested dates/times mapping shape; fed an already-flat dose list (a bare
sequence) it yields the empty list, so applying it to its own non-empty
output loses every dose — it is not an idempotent projection. -/
theorem c7_flatten_drops_flat_lists (xs : List Json) (raw : Json) :
    flattenDoses (.arr xs) = [] ∧
    flattenDoses (.arr (flattenDoses raw)) = [] :=
  ⟨rfl, rfl⟩

/-- Counterexample to C7 as stated: an already-flat, non-empty dose list
fed through the flattening step comes out empty — every dose is lost,
not none. -/
theorem c7_counterexample :
    flattenDoses (.arr [.obj [("pill", .str "Aspirin")]]) = [] ∧
    ([] : List Json) ≠ [.obj [("pill", .str "Aspirin")]] :=
  ⟨rfl, by decide⟩

/-- C8 (amended): the slot-occupancy coercion maps a bare sequence and a
mapping with a slots field to the same canonical sequence, but a mapping
with a results field to the empty sequence (the code only consults the
slots key); the taken-slot join attaches pill name and storage flag by
slot number, with an absent (None) name when no pill matches — the
spec's own example [2,5] against a pill list with slot 5 named X. -/
theorem c8_slot_coercion_and_join (xs : List Json) :
    normalizeSlots (.arr xs) = xs ∧
    normalizeSlots (.obj [("slots", .arr xs)]) = xs ∧
    normalizeSlots (.obj [("results", .arr xs)]) = [] ∧
    joinTakenSlots [.num 2, .num 5]
        (buildPillMap (.obj [("pills",
          .arr [.obj [("slot", .num 5), ("name", .str "X")]])])) =
      [.obj [("slot_index", .num 2), ("pill_name", .null),
             ("stored_in_hero", .null)],
       .obj [("slot_index", .num 5), ("pill_name", .str "X"),
             ("stored_in_hero", .null)]] :=
  ⟨rfl, rfl, rfl, by decide⟩

/-- Counterexample to C8 as stated: a mapping payload carrying the slot
numbers under a results field is coerced to the empty sequence, not to
the same canonical sequence as the bare-sequence shape. -/
theorem c8_counterexample :
    normalizeSlots (.obj [("results", .arr [.num 2, .num 5])]) = [] ∧
    normalizeSlots (.arr [.num 2, .num 5]) = [.num 2, .num 5] ∧
    ([] : List Json) ≠ [.num 2, .num 5] :=
  ⟨rfl, rfl, by decide⟩

/-- After a refresh that raised nothing, the client holds a truthy
access token and its acquisition time is the refresh time. -/
theorem refresh_success_fields (st : ClientState) (now : Nat) (o : RefreshOutcome)
    (hsucc : (refreshAccessToken st now o).2 = none) :
    pyTruthy (refreshAccessToken st now o).1.access_token = true ∧
    (refreshAccessToken st now o).1.token_acquired_at = now := by
  cases o with
  | netFail m => simp [refreshAccessToken] at hsucc
  | resp status body =>
    by_cases h1 : (status == 400 || status == 401) = true
    · simp [refreshAccessToken, h1] at hsucc
    · by_cases h2 : (status != 200) = true
      · simp [refreshAccessToken, h1, h2] at hsucc
      · by_cases h3 : (!pyTruthy (body.get "access_token")) = true
        · simp [refreshAccessToken, h1, h2, h3] at hsucc
        · have h3' : pyTruthy (body.get "access_token") = true := by simpa using h3
          constructor <;> simp [refreshAccessToken, h1, h2, h3']

/-- C6 (amended): at any positive monotonic time, the freshly
constructed client reports its token expired; immediately after a
successful refresh it reports it unexpired; and thereafter it reports
it expired exactly once the elapsed time since acquisition reaches
TOKEN_LIFETIME_SECONDS - 120 (at-or-beyond, not strictly beyond). -/
theorem c6_token_expiry (st : ClientState) (rt : Json) (t now now2 : Nat)
    (o : RefreshOutcome) (hpos : 0 < now) (_hle : now ≤ now2)
    (hsucc : (refreshAccessToken st now o).2 = none) :
    tokenIsExpired (mkClient rt) t = true ∧
    tokenIsExpired (refreshAccessToken st now o).1 now = false ∧
    (tokenIsExpired (refreshAccessToken st now o).1 now2 = true ↔
      TOKEN_LIFETIME_SECONDS - 120 ≤ now2 - now) := by
  obtain ⟨hacc, hacq⟩ := refresh_success_fields st now o hsucc
  have hnow : now ≠ 0 := Nat.pos_iff_ne_zero.mp hpos
  refine ⟨by simp [tokenIsExpired, mkClient, pyTruthy], ?_, ?_⟩
  · simp [tokenIsExpired, hacc, hacq, hnow, TOKEN_LIFETIME_SECONDS]
  · simp [tokenIsExpired, hacc, hacq, hnow]

/-- Witness for C6: refresh at monotonic time 1; unexpired right after,
and the boundary at elapsed 2880 seconds. -/
theorem c6_token_expiry_witness :
    tokenIsExpired (mkClient (.str "r")) 0 = true ∧
    tokenIsExpired (refreshAccessToken (mkClient (.str "r")) 1
        (.resp 200 (.obj [("access_token", .str "a")]))).1 1 = false ∧
    (tokenIsExpired (refreshAccessToken (mkClient (.str "r")) 1
        (.resp 200 (.obj [("access_token", .str "a")]))).1 2881 = true ↔
      TOKEN_LIFETIME_SECONDS - 120 ≤ 2881 - 1) :=
  c6_token_expiry (mkClient (.str "r")) (.str "r") 0 1 2881
    (.resp 200 (.obj [("access_token", .str "a")])) (by decide) (by decide)
    (by decide)

/-- Counterexample to C6 as stated: with the token acquired at monotonic
time 1, at time 2881 the elapsed 2880 seconds do not strictly exceed
TOKEN_LIFETIME_SECONDS - 120 = 2880, yet the client already reports the
token expired (the source compares with at-or-beyond, not beyond). -/
theorem c6_counterexample :
    tokenIsExpired (refreshAccessToken (mkClient (.str "r")) 1
        (.resp 200 (.obj [("access_token", .str "a")]))).1 2881 = true ∧
    ¬ (TOKEN_LIFETIME_SECONDS - 120 < 2881 - 1) :=
  ⟨by decide, by decide⟩

/-- C10 (amended): when the token endpoint answers 200 with a body that
lacks an access_token field, refresh_access_token raises the auth
failure only after mutating the credential state: the bearer token is
set to the absent value, the acquisition timestamp becomes the current
time, and a truthy refresh_token in the body replaces the stored
refresh token (a falsy one — absent, null or empty — leaves it as it
was). -/
theorem c10_refresh_mutates_before_auth_raise (st : ClientState) (now : Nat)
    (body : Json) (hmiss : body.lookupKey "access_token" = none) :
    (refreshAccessToken st now (.resp 200 body)).2 =
      some (.authError "No access token in refresh response") ∧
    (refreshAccessToken st now (.resp 200 body)).1.access_token = .null ∧
    (refreshAccessToken st now (.resp 200 body)).1.token_acquired_at = now ∧
    (refreshAccessToken st now (.resp 200 body)).1.refresh_token =
      (if pyTruthy (body.get "refresh_token") then body.get "refresh_token"
       else st.refresh_token) := by
  have hacc : body.get "access_token" = .null := by
    simp [Json.get, Json.getD, hmiss]
  refine ⟨?_, ?_, ?_, ?_⟩ <;> simp [refreshAccessToken, hacc, pyTruthy]

/-- Witness for C10: a 200 body with only a rotated refresh token; the
raise happens with the bearer cleared, the clock set, and the refresh
token already rotated. -/
theorem c10_refresh_mutates_before_auth_raise_witness :
    (refreshAccessToken (ClientState.mk (.str "a") (.str "old") 3) 7
        (.resp 200 (.obj [("refresh_token", .str "r2")]))).2 =
      some (.authError "No access token in refresh response") ∧
    (refreshAccessToken (ClientState.mk (.str "a") (.str "old") 3) 7
        (.resp 200 (.obj [("refresh_token", .str "r2")]))).1.access_token = .null ∧
    (refreshAccessToken (ClientState.mk (.str "a") (.str "old") 3) 7
        (.resp 200 (.obj [("refresh_token", .str "r2")]))).1.token_acquired_at = 7 ∧
    (refreshAccessToken (ClientState.mk (.str "a") (.str "old") 3) 7
        (.resp 200 (.obj [("refresh_token", .str "r2")]))).1.refresh_token =
      .str "r2" :=
  c10_refresh_mutates_before_auth_raise (ClientState.mk (.str "a") (.str "old") 3)
    7 (.obj [("refresh_token", .str "r2")]) rfl

/-- Counterexample to C10 as stated: a refresh_token that is present in
the body but empty does not replace the stored refresh token — the
source guards the replacement with Python truthiness, not presence. -/
theorem c10_counterexample :
    (refreshAccessToken (ClientState.mk (.str "a") (.str "old") 3) 7
        (.resp 200 (.obj [("refresh_token", .str "")]))).1.refresh_token =
      .str "old" ∧
    (Json.obj [("refresh_token", .str "")]).lookupKey "refresh_token" =
      some (.str "") ∧
    Json.str "old" ≠ Json.str "" ∧
    (refreshAccessToken (ClientState.mk (.str "a") (.str "old") 3) 7
        (.resp 200 (.obj [("refresh_token", .str "")]))).2 =
      some (.authError "No access token in refresh response") :=
  ⟨rfl, rfl, by decide, rfl⟩

/-- The request body issues at most two HTTP attempts. -/
theorem requestCore_attempts_le_two (st1 : ClientState) (now r0 : Nat)
    (refreshO : Nat → RefreshOutcome) (httpO : Nat → HttpOutcome) :
    (requestCore st1 now r0 refreshO httpO).attempts ≤ 2 := by
  unfold requestCore
  repeat' split
  all_goals simp

/-- _request issues at most two HTTP attempts, whatever happens. -/
theorem request_attempts_le_two (st : ClientState) (now : Nat)
    (refreshO : Nat → RefreshOutcome) (httpO : Nat → HttpOutcome) :
    (request st now refreshO httpO).attempts ≤ 2 := by
  unfold request
  by_cases hn : (!pyTruthy st.access_token || tokenIsExpired st now) = true
  · rw [if_pos hn]
    rcases hr : refreshAccessToken st now (refreshO 0) with ⟨st1, e⟩
    cases e with
    | some e0 => simp
    | none => exact requestCore_attempts_le_two st1 now 1 refreshO httpO
  · rw [if_neg hn]
    exact requestCore_attempts_le_two st now 0 refreshO httpO

/-- With a truthy, unexpired token, _ensure_token refreshes nothing and
the request goes straight to the attempt/retry body. -/
theorem request_valid_token (st : ClientState) (now : Nat)
    (refreshO : Nat → RefreshOutcome) (httpO : Nat → HttpOutcome)
    (hT : pyTruthy st.access_token = true) (hE : tokenIsExpired st now = false) :
    request st now refreshO httpO = requestCore st now 0 refreshO httpO := by
  unfold request
  rw [hT, hE]
  simp

/-- After a 401 first attempt and a successful forced refresh, the
request body is exactly the retry's outcome, with two attempts and one
more refresh. -/
theorem requestCore_on_401 (st : ClientState) (now r0 : Nat)
    (refreshO : Nat → RefreshOutcome) (httpO : Nat → HttpOutcome) (body : Json)
    (st2 : ClientState) (h0 : httpO 0 = .resp 401 body)
    (hr : refreshAccessToken st now (refreshO r0) = (st2, none)) :
    requestCore st now r0 refreshO httpO =
      (match httpO 1 with
       | .netFail m =>
         { state := st2, attempts := 2, refreshes := r0 + 1
           result := .error (.connError ("Connection error: " ++ m)) }
       | .resp status2 body2 =>
         if status2 == 401 then
           { state := st2, attempts := 2, refreshes := r0 + 1
             result := .error (.authError "Authentication failed after retry") }
         else if status2 != 200 then
           { state := st2, attempts := 2, refreshes := r0 + 1
             result := .error (.apiError ("Request failed: " ++ toString status2)) }
         else
           { state := st2, attempts := 2, refreshes := r0 + 1
             result := .ok body2 }) := by
  simp only [requestCore, h0, hr]
  rfl

/-- C3: the shared request primitive issues at most two HTTP attempts;
with a believed-valid token, a 401 on the first attempt triggers exactly
one forced refresh, and — when that refresh succeeds — exactly one
retry: a 401 on the retry raises the auth failure, any other non-200 on
the retry raises the remote-error failure, and a 200 returns its body. -/
theorem c3_request_single_retry (st : ClientState) (now : Nat)
    (refreshO : Nat → RefreshOutcome) (httpO : Nat → HttpOutcome) :
    (request st now refreshO httpO).attempts ≤ 2 ∧
    (∀ body : Json, pyTruthy st.access_token = true →
      tokenIsExpired st now = false → httpO 0 = .resp 401 body →
      (request st now refreshO httpO).refreshes = 1 ∧
      ((refreshAccessToken st now (refreshO 0)).2 = none →
        (request st now refreshO httpO).attempts = 2 ∧
        (∀ body2 : Json, httpO 1 = .resp 401 body2 →
          (request st now refreshO httpO).result =
            .error (.authError "Authentication failed after retry")) ∧
        (∀ (status2 : Nat) (body2 : Json), httpO 1 = .resp status2 body2 →
          (status2 == 401) = false → (status2 == 200) = false →
          (request st now refreshO httpO).result =
            .error (.apiError ("Request failed: " ++ toString status2))) ∧
        (∀ body2 : Json, httpO 1 = .resp 200 body2 →
          (request st now refreshO httpO).result = .ok body2))) := by
  refine ⟨request_attempts_le_two st now refreshO httpO, ?_⟩
  intro body hT hE h0
  rw [request_valid_token st now refreshO httpO hT hE]
  rcases hr : refreshAccessToken st now (refreshO 0) with ⟨st2, e⟩
  constructor
  · -- exactly one refresh, whether or not it succeeded
    cases e with
    | some e0 => simp [requestCore, h0, hr]
    | none =>
      cases h2 : httpO 1 with
      | netFail m => simp [requestCore, h0, hr, h2]
      | resp s2 b2 =>
        by_cases h3 : (s2 == 401) = true
        · simp [requestCore, h0, hr, h2, h3]
        · by_cases h4 : (s2 != 200) = true
          · simp [requestCore, h0, hr, h2, h3, h4]
          · simp [requestCore, h0, hr, h2, h3, h4]
  · intro hsucc
    cases e with
    | some e0 => exact absurd hsucc (by simp)
    | none =>
      have hcore := requestCore_on_401 st now 0 refreshO httpO body st2 h0 hr
      refine ⟨?_, ?_, ?_, ?_⟩
      · rw [hcore]
        cases h2 : httpO 1 with
        | netFail m => rfl
        | resp s2 b2 =>
          by_cases h3 : (s2 == 401) = true
          · simp [h3]
          · by_cases h4 : (s2 != 200) = true
            · simp [h3, h4]
            · simp [h3, h4]
      · intro body2 h2
        rw [hcore, h2]
        rfl
      · intro status2 body2 h2 h401 h200
        rw [hcore, h2]
        simp [h401, bne, h200]
      · intro body2 h2
        rw [hcore, h2]
        rfl

/-- A valid-token client state for the C3 witness. -/
def c3State : ClientState :=
  { access_token := .str "tok", refresh_token := .str "r", token_acquired_at := 1 }

/-- Witness for C3: first attempt and retry both answer 401 while the
forced refresh succeeds; two attempts, and the auth failure is raised. -/
theorem c3_request_single_retry_witness :
    (request c3State 1 (fun _ => .resp 200 (.obj [("access_token", .str "a2")]))
        (fun _ => .resp 401 .null)).attempts = 2 ∧
    (request c3State 1 (fun _ => .resp 200 (.obj [("access_token", .str "a2")]))
        (fun _ => .resp 401 .null)).refreshes = 1 ∧
    (request c3State 1 (fun _ => .resp 200 (.obj [("access_token", .str "a2")]))
        (fun _ => .resp 401 .null)).result =
      .error (.authError "Authentication failed after retry") := by
  have h := c3_request_single_retry c3State 1
    (fun _ => .resp 200 (.obj [("access_token", .str "a2")]))
    (fun _ => .resp 401 .null)
  have h2 := h.2 .null (by decide) (by decide) rfl
  have h3 := h2.2 (by decide)
  exact ⟨h3.1, h2.1, h3.2.1 .null rfl⟩

/-- C9 (amended): in a cycle whose fetch completes, the persistence hook
is invoked exactly once with the client's refresh token precisely when
it differs from the persisted value, and not at all when it is
unchanged; in a cycle whose fetch raised — the auth escalation and both
non-auth branches — the hook is never invoked, even if the token was
rotated during the cycle. -/
theorem c9_hook_fires_iff_successful_rotation (s : Snapshot)
    (prior : Option Snapshot) (persisted clientTok : Json) (e : HError) :
    (asyncUpdateData (.ok s) prior persisted clientTok).hookCalls =
      (if clientTok = persisted then [] else [clientTok]) ∧
    (asyncUpdateData (.error e) prior persisted clientTok).hookCalls = [] := by
  refine ⟨rfl, ?_⟩
  cases e with
  | authError m => rfl
  | connError m => cases prior <;> rfl
  | apiError m => cases prior <;> rfl

/-- An all-auth-failure batch for the C9 counterexample: every call
ended in the retry-exhausted auth error. -/
def c9AuthBatch : Batch :=
  { doses := .error (.authError "Authentication failed after retry")
    events := .error (.authError "Authentication failed after retry")
    pills := .error (.authError "Authentication failed after retry")
    config := .error (.authError "Authentication failed after retry")
    slots := .error (.authError "Authentication failed after retry") }

/-- The rotating 200 response of the C9 counterexample's refresh. -/
def c9RotBody : Json :=
  .obj [("access_token", .str "at"), ("refresh_token", .str "new")]

/-- Counterexample to C9 as stated: a refresh during the cycle can
rotate the token (here from old to new, via a successful 200 exchange)
while every data call still ends in an auth failure, so the cycle
escalates and the persistence hook is never invoked — not exactly once
— although the rotated token differs from the persisted value. The
request trace shows the rotated-token client still failing with the
retry-exhausted auth error that fills the batch. -/
theorem c9_counterexample :
    Json.str "new" ≠ Json.str "old" ∧
    (refreshAccessToken (mkClient (.str "old")) 1 (.resp 200 c9RotBody)).2 =
      none ∧
    (refreshAccessToken (mkClient (.str "old")) 1
        (.resp 200 c9RotBody)).1.refresh_token = .str "new" ∧
    (request (refreshAccessToken (mkClient (.str "old")) 1
          (.resp 200 c9RotBody)).1 1
        (fun _ => .resp 200 (.obj [("access_token", .str "at")]))
        (fun _ => .resp 401 .null)).result =
      .error (.authError "Authentication failed after retry") ∧
    (updateCycle c9AuthBatch (fun _ => .ok .null) none
        (.str "old") (.str "new")).hookCalls = [] ∧
    (updateCycle c9AuthBatch (fun _ => .ok .null) none
        (.str "old") (.str "new")).result =
      .error (.configEntryAuthFailed
        "Authentication failed: Authentication failed after retry") :=
  ⟨by decide, rfl, rfl, by decide, rfl, rfl⟩
